import Mathlib

/-!
Verification of the metadata-normalization and grouping engine of
py_music_tools (src/main.py) against its natural-language specification.
Python strings are modelled as `List Char`; machine-level details (logging,
actual filesystem operations) are modelled as data where the spec claims
depend on them.  Python exceptions are modelled with `Except PyError`.
-/

/-- Kinds of Python exceptions raised by the code under analysis. -/
inductive PyError where
  | attributeError : PyError
  | nameError : PyError
  | readError : PyError
deriving DecidableEq, Repr

/-- ASCII lower-case letter, the regex class [a-z] in to_snake_case. -/
def isAsciiLower (c : Char) : Bool := 97 ≤ c.toNat && c.toNat ≤ 122

/-- ASCII upper-case letter, the regex class [A-Z] in to_snake_case. -/
def isAsciiUpper (c : Char) : Bool := 65 ≤ c.toNat && c.toNat ≤ 90

/-- ASCII digit, the regex class [0-9] in to_snake_case. -/
def isAsciiDigit (c : Char) : Bool := 48 ≤ c.toNat && c.toNat ≤ 57

/-- ASCII letter or digit, the regex class [a-zA-Z0-9] in to_snake_case. -/
def isAsciiAlnum (c : Char) : Bool := isAsciiLower c || isAsciiUpper c || isAsciiDigit c

/-- The inner substitution of to_snake_case:
    re.sub(the pattern matching either the empty position between a
    lower-case and an upper-case letter, or one character outside
    [a-zA-Z0-9], an underscore, s).  Scanning left to right: at each
    character an underscore is inserted when the previous original
    character is ASCII lower-case and the current one ASCII upper-case,
    and the character itself is kept when it is an ASCII letter or digit
    and replaced by an underscore otherwise.  `prev` is the previous
    character of the original string. -/
def boundaryMark (prev : Option Char) (c : Char) : List Char :=
  match prev with
  | some p => if isAsciiLower p && isAsciiUpper c then ['_'] else []
  | none => []

def regexSubAux (prev : Option Char) : List Char → List Char
  | [] => []
  | c :: rest =>
    boundaryMark prev c ++ (if isAsciiAlnum c then [c] else ['_'])
      ++ regexSubAux (some c) rest

/-- Python str.strip("_"): remove leading and trailing underscores. -/
def stripUnderscore (l : List Char) : List Char :=
  ((l.dropWhile fun c => c == '_').reverse.dropWhile fun c => c == '_').reverse

/-- Python str.lower() restricted to the characters that can occur after the
    inner substitution (ASCII letters, digits and underscores), where it
    lower-cases A-Z and leaves everything else unchanged. -/
def pyToLower (c : Char) : Char :=
  if 65 ≤ c.toNat && c.toNat ≤ 90 then Char.ofNat (c.toNat + 32) else c

/-- Python str.lower() over a whole string. -/
def lowerStr (l : List Char) : List Char := l.map pyToLower

/-- The outer substitution of to_snake_case: re.sub("__+", "_", s),
    collapsing every run of consecutive underscores to one underscore. -/
def collapseUnderscore : List Char → List Char
  | [] => []
  | [c] => [c]
  | c :: d :: rest =>
    if c == '_' && d == '_' then collapseUnderscore (d :: rest)
    else c :: collapseUnderscore (d :: rest)

/-- src/main.py line 55: convert given string to snake_case. -/
def to_snake_case (s : List Char) : List Char :=
  collapseUnderscore (lowerStr (stripUnderscore (regexSubAux none s)))

/-- Decimal digit string of a natural number, with a structural fuel
    argument bounding the recursion depth (any fuel above the number
    itself gives the same result). -/
def natStrAux : Nat → Nat → List Char
  | 0, _ => []
  | fuel + 1, n =>
    if n < 10 then [Char.ofNat (48 + n)]
    else natStrAux fuel (n / 10) ++ [Char.ofNat (48 + n % 10)]

/-- Python str(n) for a natural number: its decimal digit string. -/
def natStr (n : Nat) : List Char := natStrAux (n + 1) n

/-- The literal "Unknown" used as the missing-metadata fallback. -/
def unknownStr : List Char := "Unknown".data

/-- The literal "Empty" used as the empty-transliteration fallback. -/
def emptyStr : List Char := "Empty".data

/-- A file on disk: its stem and its extension.  `suffix` models Python's
    pathlib suffix, which is either empty or starts with a dot. -/
structure FileRec where
  stem : List Char
  suffix : List Char
deriving DecidableEq, Repr

/-- src/main.py lines 184-241: the MusicSong record.  The ascii fields are
    attrs defaults with init=False, computed from the raw fields at
    construction time. -/
structure MusicSong where
  file_path : FileRec
  artist : List Char
  album : List Char
  title : List Char
  artist_ascii : List Char
  album_ascii : List Char
  title_ascii : List Char
deriving DecidableEq, Repr

/-- The value returned by get_key_with_fallback: either the list of strings
    stored under the key in the mutagen tag mapping, or the fallback, which
    is the Python string "" (the default argument). -/
inductive TagValue where
  | found : List (List Char) → TagValue
  | fallback : List Char → TagValue
deriving DecidableEq, Repr

/-- src/main.py line 51: " ".join(tag).  For a list of strings this joins
    with a single space; the fallback is a plain string, and joining a
    string iterates its characters, so " ".join("") is "" and
    " ".join("ab") is "a b". -/
def id3_tag_to_str : TagValue → List Char
  | TagValue.found xs => List.intercalate [' '] xs
  | TagValue.fallback s => List.intercalate [' '] (s.map fun c => [c])

/-- src/main.py lines 60-66: look the key up in the tag mapping; on KeyError
    log and return the default fallback value "". -/
def get_key_with_fallback (tags : List (String × List (List Char))) (key : String) :
    TagValue :=
  match tags.lookup key with
  | some v => TagValue.found v
  | none => TagValue.fallback []

/-- MusicSong construction as invoked by create_musicsong_object: all three
    tag arguments are supplied, so the attrs field defaults (which would
    substitute "Unknown" for an empty value) are never consulted — attrs
    runs a field's default only when the argument is omitted.  The
    converter id3_tag_to_str is applied to each supplied value.  The ascii
    fields have init=False, so their defaults always run: unidecode of the
    raw field, with "Empty" substituted when the result is the empty
    string.  `unidecode` is the external Transliterator. -/
def mkMusicSong (unidecode : List Char → List Char) (file : FileRec)
    (artistArg albumArg titleArg : TagValue) : MusicSong :=
  let artist := id3_tag_to_str artistArg
  let album := id3_tag_to_str albumArg
  let title := id3_tag_to_str titleArg
  { file_path := file
    artist := artist
    album := album
    title := title
    artist_ascii := if unidecode artist = [] then emptyStr else unidecode artist
    album_ascii := if unidecode album = [] then emptyStr else unidecode album
    title_ascii := if unidecode title = [] then emptyStr else unidecode title }

/-- src/main.py lines 88-95: read the three tag fields through
    get_key_with_fallback and construct the MusicSong.  `tags` is the
    mapping the Tag Reader produced for the file (both the mp3 and the
    generic branch yield such a mapping). -/
def create_musicsong_object (unidecode : List Char → List Char) (file : FileRec)
    (tags : List (String × List (List Char))) : MusicSong :=
  mkMusicSong unidecode file (get_key_with_fallback tags "artist")
    (get_key_with_fallback tags "album") (get_key_with_fallback tags "title")

/-- What happens when the Tag Reader (mutagen.File) is applied to one
    filesystem entry: it recognizes an audio file, recognizes a non-audio
    file, or raises an exception while reading. -/
inductive TagReadOutcome where
  | audio : TagReadOutcome
  | notAudio : TagReadOutcome
  | raisesErr : TagReadOutcome
deriving DecidableEq, Repr

/-- src/main.py lines 69-85: recursively collect the files mutagen
    recognizes as audio.  A non-audio file is logged and skipped; a file
    whose read raises is logged and the exception is re-raised, aborting
    the whole scan.  The directory scan is modelled as the list of files
    found, each with its Tag Reader outcome. -/
def get_music_files_list : List (FileRec × TagReadOutcome) → Except PyError (List FileRec)
  | [] => Except.ok []
  | (f, o) :: rest =>
    match o with
    | TagReadOutcome.audio =>
      match get_music_files_list rest with
      | Except.ok r => Except.ok (f :: r)
      | Except.error e => Except.error e
    | TagReadOutcome.notAudio => get_music_files_list rest
    | TagReadOutcome.raisesErr => Except.error PyError.readError

/-- src/main.py lines 179-181: the Stats namedtuple, nine counters all
    defaulting to zero. -/
structure Stats where
  artists : Nat
  albums : Nat
  titles : Nat
  unknown_artists : Nat
  unknown_albums : Nat
  unknown_titles : Nat
  empty_artists : Nat
  empty_albums : Nat
  empty_titles : Nat
deriving DecidableEq, Repr

/-- Stats() with the default field values. -/
def Stats.zero : Stats := ⟨0, 0, 0, 0, 0, 0, 0, 0, 0⟩

/-- Assignment to a field of a namedtuple instance (stats.field = v, and
    the store half of stats.field += v): namedtuples are immutable, so the
    assignment raises AttributeError regardless of the field or value. -/
def namedtupleSetattr (_instance : Stats) (_v : Nat) : Except PyError Stats :=
  Except.error PyError.attributeError

/-- Loading a plain name: NameError when the name is not bound in any
    enclosing scope. -/
def pyLoadName (bound : List String) (name : String) : Except PyError Unit :=
  if name ∈ bound then Except.ok () else Except.error PyError.nameError

/-- Loading a name expected to hold an integer, from an association list of
    the integer variables actually bound in scope. -/
def pyLoadNat (scope : List (String × Nat)) (name : String) : Except PyError Nat :=
  match scope.lookup name with
  | some v => Except.ok v
  | none => Except.error PyError.nameError

/-- The names bound in the scope of get_statistics: its parameter, the
    three dedup lists, stats, and the loop variable. -/
def statBoundNames : List String :=
  ["musicsong_object_list", "artist_list", "album_list", "title_list", "stats", "item"]

/-- The integer locals bound in get_statistics: none — the names
    unknown_titles and empty_titles are read on lines 123 and 128 but never
    assigned anywhere in the function. -/
def statIntLocals : List (String × Nat) := []

/-- The three dedup lists accumulated by get_statistics. -/
structure StatAcc where
  artist_list : List (List Char)
  album_list : List (List Char)
  title_list : List (List Char)
deriving DecidableEq, Repr

/-- src/main.py lines 126-128: if item.title_ascii == "Empty":
    stats.empty_titles += 1 (AttributeError on the namedtuple) followed by
    item.title += str(empty_titles) (the name empty_titles is unbound; the
    statement is unreachable because the previous one raises). -/
def stat_title_ascii (stats : Stats) (acc : StatAcc) (item : MusicSong) :
    Except PyError (Stats × StatAcc × MusicSong) :=
  if item.title_ascii = emptyStr then
    match namedtupleSetattr stats (stats.empty_titles + 1) with
    | Except.error e => Except.error e
    | Except.ok s1 =>
      match pyLoadNat statIntLocals "empty_titles" with
      | Except.error e => Except.error e
      | Except.ok n => Except.ok (s1, acc, { item with title := item.title ++ natStr n })
  else Except.ok (stats, acc, item)

/-- src/main.py lines 121-125: if item.title == "Unknown":
    stats.unknown_titles += 1 (AttributeError) then item.title +=
    str(unknown_titles) (unbound name, unreachable); elif the title was not
    seen before, append it to title_list. -/
def stat_title (stats : Stats) (acc : StatAcc) (item : MusicSong) :
    Except PyError (Stats × StatAcc × MusicSong) :=
  if item.title = unknownStr then
    match namedtupleSetattr stats (stats.unknown_titles + 1) with
    | Except.error e => Except.error e
    | Except.ok s1 =>
      match pyLoadNat statIntLocals "unknown_titles" with
      | Except.error e => Except.error e
      | Except.ok n => stat_title_ascii s1 acc { item with title := item.title ++ natStr n }
  else if item.title ∉ acc.title_list then
    stat_title_ascii stats { acc with title_list := acc.title_list ++ [item.title] } item
  else stat_title_ascii stats acc item

/-- src/main.py lines 118-119: if item.album_ascii == "Empty":
    stats.empty_albums += 1 (AttributeError). -/
def stat_album_ascii (stats : Stats) (acc : StatAcc) (item : MusicSong) :
    Except PyError (Stats × StatAcc × MusicSong) :=
  if item.album_ascii = emptyStr then
    match namedtupleSetattr stats (stats.empty_albums + 1) with
    | Except.error e => Except.error e
    | Except.ok s1 => stat_title s1 acc item
  else stat_title stats acc item

/-- src/main.py lines 114-117: if item.album == "Unknown":
    stat.sunknown_albums += 1 — the name stat is unbound (a typo for
    stats), so the load raises NameError; the attribute access on it is
    unreachable.  elif the album was not seen before, append it to
    album_list. -/
def stat_album (stats : Stats) (acc : StatAcc) (item : MusicSong) :
    Except PyError (Stats × StatAcc × MusicSong) :=
  if item.album = unknownStr then
    match pyLoadName statBoundNames "stat" with
    | Except.error e => Except.error e
    | Except.ok _ => Except.error PyError.attributeError
  else if item.album ∉ acc.album_list then
    stat_album_ascii stats { acc with album_list := acc.album_list ++ [item.album] } item
  else stat_album_ascii stats acc item

/-- src/main.py lines 111-112: if item.artist_ascii == "Empty":
    stats.empty_artists += 1 (AttributeError). -/
def stat_artist_ascii (stats : Stats) (acc : StatAcc) (item : MusicSong) :
    Except PyError (Stats × StatAcc × MusicSong) :=
  if item.artist_ascii = emptyStr then
    match namedtupleSetattr stats (stats.empty_artists + 1) with
    | Except.error e => Except.error e
    | Except.ok s1 => stat_album s1 acc item
  else stat_album stats acc item

/-- src/main.py lines 106-128: one iteration of the loop body of
    get_statistics, statement by statement, starting with lines 107-110:
    if item.artist == "Unknown": stats.unknown_artists += 1
    (AttributeError on the namedtuple); elif the artist was not seen
    before, append it to artist_list.  The remaining statements of the
    body are the stat_artist_ascii / stat_album / stat_album_ascii /
    stat_title / stat_title_ascii stages, executed in that order. -/
def stat_step (stats : Stats) (acc : StatAcc) (item : MusicSong) :
    Except PyError (Stats × StatAcc × MusicSong) :=
  if item.artist = unknownStr then
    match namedtupleSetattr stats (stats.unknown_artists + 1) with
    | Except.error e => Except.error e
    | Except.ok s1 => stat_artist_ascii s1 acc item
  else if item.artist ∉ acc.artist_list then
    stat_artist_ascii stats { acc with artist_list := acc.artist_list ++ [item.artist] } item
  else stat_artist_ascii stats acc item

/-- The loop of get_statistics followed by the three assignments
    stats.artists = len(artist_list), stats.albums = len(album_list),
    stats.titles = len(title_list) (each an AttributeError on the
    namedtuple) and the return.  Returns the function result, the final
    dedup lists, and the final state of the MusicSong objects the caller
    passed in (processed items in order, then the items not yet reached
    when an exception escaped). -/
def stat_loop (stats : Stats) (acc : StatAcc) (done : List MusicSong) :
    List MusicSong → Except PyError Stats × StatAcc × List MusicSong
  | [] =>
    match namedtupleSetattr stats acc.artist_list.length with
    | Except.error e => (Except.error e, acc, done.reverse)
    | Except.ok s1 =>
      match namedtupleSetattr s1 acc.album_list.length with
      | Except.error e => (Except.error e, acc, done.reverse)
      | Except.ok s2 =>
        match namedtupleSetattr s2 acc.title_list.length with
        | Except.error e => (Except.error e, acc, done.reverse)
        | Except.ok s3 => (Except.ok s3, acc, done.reverse)
  | item :: rest =>
    match stat_step stats acc item with
    | Except.ok (s, a, it) => stat_loop s a (it :: done) rest
    | Except.error e => (Except.error e, acc, done.reverse ++ item :: rest)

/-- src/main.py lines 98-134: get_statistics.  The second and third
    components expose the dedup lists and the caller-visible MusicSong
    objects after the call (normally or exceptionally) returns. -/
def get_statistics (musicsong_object_list : List MusicSong) :
    Except PyError Stats × StatAcc × List MusicSong :=
  stat_loop Stats.zero ⟨[], [], []⟩ [] musicsong_object_list

/-- src/main.py lines 148-155: the inner loop of move_files_to_folders over
    one (artist, album) bucket.  `album_dir` is the destination directory
    as a list of path segments, `unknown_titles` the per-album counter,
    initially 0.  A title literally equal to "Unknown" is rebound to
    title + str(unknown_titles) before the counter is incremented; every
    other title is used as is.  The destination of a track is
    album_dir / (to_snake_case(title) + str(file.suffix)).  Returns the
    move plan: (file, destination path) in loop order; the actual renames
    are delegated to the filesystem. -/
def album_moves (album_dir : List (List Char)) (unknown_titles : Nat) :
    List (List Char × FileRec) → List (FileRec × List (List Char))
  | [] => []
  | (title, file) :: rest =>
    if title = unknownStr then
      (file, album_dir ++ [to_snake_case (title ++ natStr unknown_titles) ++ file.suffix])
        :: album_moves album_dir (unknown_titles + 1) rest
    else
      (file, album_dir ++ [to_snake_case title ++ file.suffix])
        :: album_moves album_dir unknown_titles rest

/-- src/main.py lines 137-155: move_files_to_folders.  The data dictionary
    maps artist → album → list of (title, file); directories are created
    idempotently (existence-checked), which does not affect the computed
    destination paths, so the model returns the move plan.  Keys are
    iterated in dictionary (insertion) order, and the unknown_titles
    counter is reset to 0 at each album. -/
def move_files_to_folders
    (data_dictionary : List (List Char × List (List Char × List (List Char × FileRec))))
    (target_dir : List (List Char)) : List (FileRec × List (List Char)) :=
  (data_dictionary.map fun artistEntry =>
    (artistEntry.2.map fun albumEntry =>
      album_moves
        (target_dir ++ [to_snake_case artistEntry.1, to_snake_case albumEntry.1]) 0
        albumEntry.2).flatten).flatten

/-- The names bound in the scope of build_directory_tree: its two
    parameters and the two counters assigned before the loop.  The loop on
    line 162 iterates music_file_paths, which is none of these (it is a
    local variable of main) and not a module-level global either. -/
def buildTreeBoundNames : List String :=
  ["musicsong_object_list", "target_dir", "artist_dirs", "album_dirs"]

/-- The loop body of build_directory_tree as it would run if its iterable
    resolved to the MusicSong list: create the artist and album directories
    that do not exist yet, accumulating the created directories. -/
def buildTreeLoop (target_dir : List (List Char)) (created : List (List (List Char))) :
    List MusicSong → List (List (List Char))
  | [] => created
  | item :: rest =>
    let artist_dir := target_dir ++ [to_snake_case item.artist_ascii]
    let album_dir := artist_dir ++ [to_snake_case item.album_ascii]
    let c1 := if artist_dir ∈ created then created else created ++ [artist_dir]
    let c2 := if album_dir ∈ c1 then c1 else c1 ++ [album_dir]
    buildTreeLoop target_dir c2 rest

/-- src/main.py lines 158-176: build_directory_tree.  The very first action
    of the loop is to evaluate its iterable, the name music_file_paths,
    which is unbound in this scope; the pair returned is the list of
    directories created before the function finished (normally or
    exceptionally) and the outcome. -/
def build_directory_tree (musicsong_object_list : List MusicSong)
    (target_dir : List (List Char)) : List (List (List Char)) × Except PyError Unit :=
  match pyLoadName buildTreeBoundNames "music_file_paths" with
  | Except.error e => ([], Except.error e)
  | Except.ok _ => (buildTreeLoop target_dir [] musicsong_object_list, Except.ok ())

/-- src/main.py lines 320-328: the pipeline of main up to and including the
    materialization step build_directory_tree: scan for music files, build
    the MusicSong objects, compute statistics, build the directory tree.
    `tags` gives the Tag Reader output per file and `unidecode` is the
    external Transliterator.  Returns the directories created by the
    materialization step when main reaches the end of that step. -/
def main_run (files : List (FileRec × TagReadOutcome))
    (tags : FileRec → List (String × List (List Char)))
    (unidecode : List Char → List Char) (target_dir : List (List Char)) :
    Except PyError (List (List (List Char))) :=
  match get_music_files_list files with
  | Except.error e => Except.error e
  | Except.ok music_file_paths =>
    let musicsong_object_list :=
      music_file_paths.map fun f => create_musicsong_object unidecode f (tags f)
    match (get_statistics musicsong_object_list).1 with
    | Except.error e => Except.error e
    | Except.ok _ =>
      match build_directory_tree musicsong_object_list target_dir with
      | (dirs, Except.ok _) => Except.ok dirs
      | (_, Except.error e) => Except.error e

/-- A file suffix produced by pathlib: either empty or starting with a
    dot. -/
def suffixOk (s : List Char) : Prop := s = [] ∨ s.head? = some '.'

instance suffixOk_decidable (s : List Char) : Decidable (suffixOk s) := by
  unfold suffixOk
  infer_instance

/-- First-seen deduplication of one raw string into a seen-list, the
    effect of the elif branches of get_statistics. -/
def dedupAppend (seen : List (List Char)) (x : List Char) : List (List Char) :=
  if x ∈ seen then seen else seen ++ [x]

/-- Concrete files used in witnesses and counterexamples. -/
def fileA : FileRec := ⟨"track_one".data, ".mp3".data⟩

def fileB : FileRec := ⟨"track_two".data, ".mp3".data⟩

def fileC : FileRec := ⟨"track_three".data, ".mp3".data⟩

def fileD : FileRec := ⟨"track_four".data, ".mp3".data⟩

def fileE : FileRec := ⟨"track_five".data, ".mp3".data⟩

def fileF : FileRec := ⟨"track_six".data, ".mp3".data⟩

def fileG : FileRec := ⟨"track_seven".data, ".flac".data⟩

def fileH : FileRec := ⟨"track_eight".data, ".ogg".data⟩

/-- A track whose artist is "Song Artist"; all fields already ASCII, no
    "Unknown" or "Empty" value anywhere, so the get_statistics loop body
    processes it without raising. -/
def songRawA : MusicSong :=
  ⟨fileA, "Song Artist".data, "Album B".data, "Title One".data,
    "Song Artist".data, "Album B".data, "Title One".data⟩

/-- A track like songRawA whose artist "song artist" differs from
    songRawA's artist as a raw string but has the same snake_case key. -/
def songRawB : MusicSong :=
  ⟨fileB, "song artist".data, "Album B".data, "Title Two".data,
    "song artist".data, "Album B".data, "Title Two".data⟩

theorem alnum_underscore_false : isAsciiAlnum '_' = false := by decide

theorem alnum_of_digit (c : Char) (h : isAsciiDigit c = true) : isAsciiAlnum c = true := by
  simp [isAsciiAlnum, h]

theorem not_upper_of_digit (c : Char) (h : isAsciiDigit c = true) : isAsciiUpper c = false := by
  simp only [isAsciiDigit, Bool.and_eq_true, decide_eq_true_eq] at h
  simp only [isAsciiUpper, Bool.and_eq_false_iff, decide_eq_false_iff_not]
  omega

theorem ne_underscore_of_digit (c : Char) (h : isAsciiDigit c = true) : c ≠ '_' := by
  intro he
  rw [he] at h
  exact absurd h (by decide)

theorem pyToLower_digit (c : Char) (h : isAsciiDigit c = true) : pyToLower c = c := by
  simp only [isAsciiDigit, Bool.and_eq_true, decide_eq_true_eq] at h
  unfold pyToLower
  rw [if_neg]
  simp only [Bool.and_eq_true, decide_eq_true_eq, not_and]
  omega

theorem collapseUnderscore_eq_nil : ∀ l : List Char, collapseUnderscore l = [] ↔ l = []
  | [] => by simp [collapseUnderscore]
  | [c] => by simp [collapseUnderscore]
  | c :: d :: rest => by
    rw [collapseUnderscore]
    split
    · rw [collapseUnderscore_eq_nil (d :: rest)]
      simp
    · simp

theorem dropWhile_underscore_of_ne (l : List Char) (h : ∀ c ∈ l, c ≠ '_') :
    l.dropWhile (fun c => c == '_') = l := by
  cases l with
  | nil => rfl
  | cons c rest =>
    rw [List.dropWhile_cons, if_neg]
    simp [h c (List.mem_cons_self c rest)]

theorem stripUnderscore_eq_nil (l : List Char) :
    stripUnderscore l = [] ↔ ∀ c ∈ l, c = '_' := by
  unfold stripUnderscore
  rw [List.reverse_eq_nil_iff, List.dropWhile_eq_nil_iff]
  constructor
  · intro h c hc
    rcases List.mem_append.mp
        ((List.takeWhile_append_dropWhile (fun c => c == '_') l) ▸ hc) with h1 | h1
    · simpa using List.mem_takeWhile_imp h1
    · simpa using h c (List.mem_reverse.mpr h1)
  · intro h c hc
    have hm : c ∈ l := (List.dropWhile_sublist _).mem (List.mem_reverse.mp hc)
    simp [h c hm]

theorem stripUnderscore_of_no_underscore (l : List Char) (h : ∀ c ∈ l, c ≠ '_') :
    stripUnderscore l = l := by
  unfold stripUnderscore
  rw [dropWhile_underscore_of_ne l h, dropWhile_underscore_of_ne, List.reverse_reverse]
  intro c hc
  exact h c (List.mem_reverse.mp hc)

theorem collapseUnderscore_of_no_underscore :
    ∀ l : List Char, (∀ c ∈ l, c ≠ '_') → collapseUnderscore l = l
  | [], _ => rfl
  | [c], _ => rfl
  | c :: d :: rest, h => by
    rw [collapseUnderscore, if_neg, collapseUnderscore_of_no_underscore (d :: rest)]
    · intro x hx
      exact h x (List.mem_cons_of_mem c hx)
    · simp [h c (List.mem_cons_self c (d :: rest))]

theorem mem_boundaryMark (prev : Option Char) (c x : Char)
    (h : x ∈ boundaryMark prev c) : x = '_' := by
  cases prev with
  | none => simp [boundaryMark] at h
  | some p =>
    by_cases hb : (isAsciiLower p && isAsciiUpper c) = true
    · simp [boundaryMark, hb] at h
      exact h
    · simp [boundaryMark, hb] at h

theorem mem_regexSubAux :
    ∀ (l : List Char) (prev : Option Char) (x : Char), x ∈ regexSubAux prev l →
      x = '_' ∨ (x ∈ l ∧ isAsciiAlnum x = true)
  | [], _, x, h => by simp [regexSubAux] at h
  | c :: rest, prev, x, h => by
    simp only [regexSubAux, List.append_assoc, List.mem_append] at h
    rcases h with h | h | h
    · exact Or.inl (mem_boundaryMark prev c x h)
    · by_cases ha : isAsciiAlnum c = true
      · rw [if_pos ha] at h
        simp only [List.mem_singleton] at h
        rw [h]
        exact Or.inr ⟨List.mem_cons_self c rest, ha⟩
      · rw [if_neg ha] at h
        simp only [List.mem_singleton] at h
        exact Or.inl h
    · rcases mem_regexSubAux rest (some c) x h with h1 | ⟨h1, h2⟩
      · exact Or.inl h1
      · exact Or.inr ⟨List.mem_cons_of_mem c h1, h2⟩

theorem mem_regexSubAux_of_alnum :
    ∀ (l : List Char) (prev : Option Char) (x : Char), x ∈ l → isAsciiAlnum x = true →
      x ∈ regexSubAux prev l
  | [], _, x, hx, _ => by simp at hx
  | c :: rest, prev, x, hx, ha => by
    simp only [regexSubAux, List.append_assoc, List.mem_append]
    rcases List.mem_cons.mp hx with h | h
    · subst h
      right
      left
      rw [if_pos ha]
      exact List.mem_singleton_self x
    · exact Or.inr (Or.inr (mem_regexSubAux_of_alnum rest (some c) x h ha))

theorem regexSubAux_all_underscore_iff (l : List Char) (prev : Option Char) :
    (∀ x ∈ regexSubAux prev l, x = '_') ↔ ∀ c ∈ l, isAsciiAlnum c = false := by
  constructor
  · intro h c hc
    by_cases ha : isAsciiAlnum c = true
    · have hm := mem_regexSubAux_of_alnum l prev c hc ha
      have := h c hm
      rw [this] at ha
      exact absurd ha (by decide)
    · simpa using ha
  · intro h x hx
    rcases mem_regexSubAux l prev x hx with h1 | ⟨h1, h2⟩
    · exact h1
    · rw [h x h1] at h2
      cases h2

theorem to_snake_case_eq_nil (s : List Char) :
    to_snake_case s = [] ↔ ∀ c ∈ s, isAsciiAlnum c = false := by
  unfold to_snake_case
  rw [collapseUnderscore_eq_nil, lowerStr, List.map_eq_nil_iff, stripUnderscore_eq_nil]
  exact regexSubAux_all_underscore_iff s none

theorem natStrAux_congr :
    ∀ (f1 f2 n : Nat), n < f1 → n < f2 → natStrAux f1 n = natStrAux f2 n
  | 0, _, n, h1, _ => absurd h1 (by omega)
  | _ + 1, 0, n, _, h2 => absurd h2 (by omega)
  | f1 + 1, f2 + 1, n, h1, h2 => by
    rw [natStrAux, natStrAux]
    by_cases h : n < 10
    · rw [if_pos h, if_pos h]
    · rw [if_neg h, if_neg h,
        natStrAux_congr f1 f2 (n / 10) (by omega) (by omega)]

theorem natStr_eq_lt (n : Nat) (h : n < 10) : natStr n = [Char.ofNat (48 + n)] := by
  rw [natStr, natStrAux]
  exact if_pos h

theorem natStr_eq_ge (n : Nat) (h : ¬ n < 10) :
    natStr n = natStr (n / 10) ++ [Char.ofNat (48 + n % 10)] := by
  rw [natStr, natStrAux, if_neg h, natStr,
    natStrAux_congr n (n / 10 + 1) (n / 10) (by omega) (by omega)]

theorem digit_char_is_digit : ∀ m < 10, isAsciiDigit (Char.ofNat (48 + m)) = true := by
  decide

theorem digit_char_inj :
    ∀ m < 10, ∀ n < 10, Char.ofNat (48 + m) = Char.ofNat (48 + n) → m = n := by
  decide

theorem natStr_ne_nil (n : Nat) : natStr n ≠ [] := by
  by_cases h : n < 10
  · rw [natStr_eq_lt n h]
    simp
  · rw [natStr_eq_ge n h]
    simp

theorem natStr_all_digit (n : Nat) : ∀ c ∈ natStr n, isAsciiDigit c = true := by
  by_cases h : n < 10
  · rw [natStr_eq_lt n h]
    intro c hc
    rw [List.mem_singleton] at hc
    rw [hc]
    exact digit_char_is_digit n h
  · rw [natStr_eq_ge n h]
    intro c hc
    rcases List.mem_append.mp hc with h1 | h1
    · exact natStr_all_digit (n / 10) c h1
    · rw [List.mem_singleton] at h1
      rw [h1]
      exact digit_char_is_digit (n % 10) (Nat.mod_lt n (by omega))
termination_by n
decreasing_by exact Nat.div_lt_self (by omega) (by omega)

theorem natStr_inj (m n : Nat) (h : natStr m = natStr n) : m = n := by
  by_cases hm : m < 10 <;> by_cases hn : n < 10
  · rw [natStr_eq_lt m hm, natStr_eq_lt n hn] at h
    exact digit_char_inj m hm n hn (List.singleton_inj.mp h)
  · rw [natStr_eq_lt m hm, natStr_eq_ge n hn] at h
    have hlen := congrArg List.length h
    simp at hlen
    exact absurd hlen (natStr_ne_nil (n / 10))
  · rw [natStr_eq_ge m hm, natStr_eq_lt n hn] at h
    have hlen := congrArg List.length h
    simp at hlen
    exact absurd hlen (natStr_ne_nil (m / 10))
  · rw [natStr_eq_ge m hm, natStr_eq_ge n hn] at h
    have h2 := congrArg List.reverse h
    simp only [List.reverse_append, List.reverse_cons, List.reverse_nil, List.nil_append,
      List.singleton_append, List.cons.injEq] at h2
    obtain ⟨hc, hr⟩ := h2
    have hmod : m % 10 = n % 10 :=
      digit_char_inj (m % 10) (Nat.mod_lt m (by omega)) (n % 10) (Nat.mod_lt n (by omega)) hc
    have hdiv : m / 10 = n / 10 :=
      natStr_inj (m / 10) (n / 10) (List.reverse_injective hr)
    omega
termination_by m
decreasing_by exact Nat.div_lt_self (by omega) (by omega)

theorem regexSubAux_no_upper :
    ∀ (l : List Char) (prev : Option Char),
      (∀ c ∈ l, isAsciiAlnum c = true ∧ isAsciiUpper c = false) →
      regexSubAux prev l = l
  | [], _, _ => rfl
  | c :: rest, prev, h => by
    obtain ⟨ha, hu⟩ := h c (List.mem_cons_self c rest)
    have hb : boundaryMark prev c = [] := by
      cases prev with
      | none => rfl
      | some p => simp [boundaryMark, hu]
    rw [regexSubAux, hb, if_pos ha,
      regexSubAux_no_upper rest (some c) (fun x hx => h x (List.mem_cons_of_mem c hx))]
    rfl

theorem lowerStr_digits : ∀ l : List Char, (∀ c ∈ l, isAsciiDigit c = true) →
    lowerStr l = l
  | [], _ => rfl
  | c :: rest, h => by
    unfold lowerStr
    rw [List.map_cons, pyToLower_digit c (h c (List.mem_cons_self c rest))]
    rw [show List.map pyToLower rest = lowerStr rest from rfl,
      lowerStr_digits rest (fun x hx => h x (List.mem_cons_of_mem c hx))]

theorem unknown_natStr_chars (k : Nat) :
    ∀ c ∈ unknownStr ++ natStr k, isAsciiAlnum c = true ∧ c ≠ '_' := by
  intro c hc
  rcases List.mem_append.mp hc with h | h
  · clear hc
    revert c
    decide
  · have hd := natStr_all_digit k c h
    exact ⟨alnum_of_digit c hd, ne_underscore_of_digit c hd⟩

theorem to_snake_case_unknown_natStr (k : Nat) :
    to_snake_case (unknownStr ++ natStr k) = "unknown".data ++ natStr k := by
  unfold to_snake_case
  have h1 : regexSubAux none (unknownStr ++ natStr k) = unknownStr ++ natStr k := by
    have hrest : regexSubAux (some 'U') ("nknown".data ++ natStr k)
        = "nknown".data ++ natStr k := by
      apply regexSubAux_no_upper
      intro c hc
      rcases List.mem_append.mp hc with h | h
      · clear hc
        revert c
        decide
      · have hd := natStr_all_digit k c h
        exact ⟨alnum_of_digit c hd, not_upper_of_digit c hd⟩
    have hshape : unknownStr ++ natStr k = 'U' :: ("nknown".data ++ natStr k) := by
      rfl
    rw [hshape, regexSubAux]
    rw [show boundaryMark none 'U' = [] from rfl, show (if isAsciiAlnum 'U' then ['U']
      else ['_']) = ['U'] from by decide, hrest]
    rfl
  rw [h1, stripUnderscore_of_no_underscore _ (fun c hc => (unknown_natStr_chars k c hc).2)]
  have h2 : lowerStr (unknownStr ++ natStr k) = "unknown".data ++ natStr k := by
    unfold lowerStr
    rw [List.map_append]
    rw [show List.map pyToLower unknownStr = "unknown".data from by decide]
    rw [show List.map pyToLower (natStr k) = lowerStr (natStr k) from rfl,
      lowerStr_digits _ (natStr_all_digit k)]
  rw [h2]
  apply collapseUnderscore_of_no_underscore
  intro c hc
  rcases List.mem_append.mp hc with h | h
  · clear hc
    revert c
    decide
  · exact ne_underscore_of_digit c (natStr_all_digit k c h)

theorem takeWhile_append_of_all (p : Char → Bool) :
    ∀ (l r : List Char), (∀ c ∈ l, p c = true) →
      (l ++ r).takeWhile p = l ++ r.takeWhile p
  | [], r, _ => by simp
  | c :: rest, r, h => by
    rw [List.cons_append, List.takeWhile_cons, if_pos (h c (List.mem_cons_self c rest)),
      takeWhile_append_of_all p rest r (fun x hx => h x (List.mem_cons_of_mem c hx))]
    rfl

theorem suffixOk_takeWhile_digit (s : List Char) (h : suffixOk s) :
    s.takeWhile isAsciiDigit = [] := by
  rcases h with h | h
  · rw [h]
    rfl
  · cases s with
    | nil => rfl
    | cons c rest =>
      simp only [List.head?_cons, Option.some.injEq] at h
      rw [h, List.takeWhile_cons, if_neg (by decide)]

theorem natStr_append_suffix_inj (a b : Nat) (s t : List Char)
    (hs : suffixOk s) (ht : suffixOk t) (h : natStr a ++ s = natStr b ++ t) : a = b := by
  have h2 := congrArg (List.takeWhile isAsciiDigit) h
  rw [takeWhile_append_of_all _ _ _ (natStr_all_digit a),
    takeWhile_append_of_all _ _ _ (natStr_all_digit b),
    suffixOk_takeWhile_digit s hs, suffixOk_takeWhile_digit t ht] at h2
  simp only [List.append_nil] at h2
  exact natStr_inj a b h2

theorem album_moves_cons_unknown (d : List (List Char)) (k : Nat) (t : List Char)
    (f : FileRec) (rest : List (List Char × FileRec)) (ht : t = unknownStr) :
    album_moves d k ((t, f) :: rest) =
      (f, d ++ [to_snake_case (t ++ natStr k) ++ f.suffix]) :: album_moves d (k + 1) rest := by
  rw [album_moves, if_pos ht]

theorem album_moves_cons_known (d : List (List Char)) (k : Nat) (t : List Char)
    (f : FileRec) (rest : List (List Char × FileRec)) (ht : ¬ t = unknownStr) :
    album_moves d k ((t, f) :: rest) =
      (f, d ++ [to_snake_case t ++ f.suffix]) :: album_moves d k rest := by
  rw [album_moves, if_neg ht]

theorem mem_album_moves_unknown :
    ∀ (bucket : List (List Char × FileRec)) (d : List (List Char)) (k : Nat),
      (∀ tf ∈ bucket, tf.1 = unknownStr) →
      (∀ tf ∈ bucket, suffixOk tf.2.suffix) →
      ∀ mv ∈ album_moves d k bucket,
        suffixOk mv.1.suffix ∧
        ∃ j, k ≤ j ∧ mv.2 = d ++ [("unknown".data ++ natStr j) ++ mv.1.suffix]
  | [], _, _, _, _ => by
    intro mv hmv
    simp [album_moves] at hmv
  | (t, f) :: rest, d, k, hall, hsuf => by
    intro mv hmv
    have ht : t = unknownStr := hall (t, f) (List.mem_cons_self _ _)
    rw [album_moves_cons_unknown d k t f rest ht] at hmv
    rcases List.mem_cons.mp hmv with h | h
    · subst h
      refine ⟨hsuf (t, f) (List.mem_cons_self _ _), k, le_refl k, ?_⟩
      rw [ht, to_snake_case_unknown_natStr k]
    · have hr := mem_album_moves_unknown rest d (k + 1)
        (fun x hx => hall x (List.mem_cons_of_mem _ hx))
        (fun x hx => hsuf x (List.mem_cons_of_mem _ hx)) mv h
      obtain ⟨h1, j, hj, h2⟩ := hr
      exact ⟨h1, j, by omega, h2⟩

theorem album_moves_all_unknown_pairwise :
    ∀ (bucket : List (List Char × FileRec)) (d : List (List Char)) (k : Nat),
      (∀ tf ∈ bucket, tf.1 = unknownStr) →
      (∀ tf ∈ bucket, suffixOk tf.2.suffix) →
      List.Pairwise (fun a b => a.2 ≠ b.2) (album_moves d k bucket)
  | [], _, _, _, _ => by
    simp [album_moves]
  | (t, f) :: rest, d, k, hall, hsuf => by
    have ht : t = unknownStr := hall (t, f) (List.mem_cons_self _ _)
    rw [album_moves_cons_unknown d k t f rest ht]
    refine List.Pairwise.cons ?_ (album_moves_all_unknown_pairwise rest d (k + 1)
      (fun x hx => hall x (List.mem_cons_of_mem _ hx))
      (fun x hx => hsuf x (List.mem_cons_of_mem _ hx)))
    intro mv hmv heq
    obtain ⟨hsfx, j, hj, hpath⟩ := mem_album_moves_unknown rest d (k + 1)
      (fun x hx => hall x (List.mem_cons_of_mem _ hx))
      (fun x hx => hsuf x (List.mem_cons_of_mem _ hx)) mv hmv
    rw [hpath, ht, to_snake_case_unknown_natStr k] at heq
    have h1 := List.singleton_inj.mp (List.append_cancel_left heq)
    rw [List.append_assoc, List.append_assoc] at h1
    have h2 := List.append_cancel_left h1
    have h3 := natStr_append_suffix_inj k j f.suffix mv.1.suffix
      (hsuf (t, f) (List.mem_cons_self _ _)) hsfx h2
    omega

theorem album_moves_filter_sublist :
    ∀ (bucket : List (List Char × FileRec)) (d : List (List Char)) (k : Nat),
      (album_moves d k (bucket.filter fun tf => tf.1 == unknownStr)).Sublist
        (album_moves d k bucket)
  | [], d, k => by simp [album_moves]
  | (t, f) :: rest, d, k => by
    by_cases ht : t = unknownStr
    · rw [List.filter_cons, if_pos (by simp [ht])]
      rw [album_moves_cons_unknown d k t f _ ht, album_moves_cons_unknown d k t f rest ht]
      exact List.Sublist.cons₂ _ (album_moves_filter_sublist rest d (k + 1))
    · rw [List.filter_cons, if_neg (by simp [ht])]
      rw [album_moves_cons_known d k t f rest ht]
      exact List.Sublist.cons _ (album_moves_filter_sublist rest d k)

/-- C5 (amended): within one (artist, album) bucket, every track whose title
    is literally "Unknown" receives a decimal suffix — the Nth such track
    (0-based position among the Unknown-titled tracks, counter starting at
    k, reset per album) has destination file name
    to_snake_case(title ++ str(k + number of prior Unknown titles)) +
    suffix, so with k = 0 the first Unknown-titled track becomes unknown0,
    the second unknown1; a track with any other title never receives a
    suffix, even when distinct titles share a snake_case key. -/
theorem album_moves_getElem :
    ∀ (bucket : List (List Char × FileRec)) (d : List (List Char)) (k i : Nat)
      (hi : i < bucket.length) (hm : i < (album_moves d k bucket).length),
      (album_moves d k bucket)[i] =
        (bucket[i].2,
          d ++ [to_snake_case
            (if bucket[i].1 = unknownStr
              then bucket[i].1
                ++ natStr (k + (bucket.take i).countP fun tf => tf.1 == unknownStr)
              else bucket[i].1) ++ bucket[i].2.suffix])
  | [], _, _, i, hi, _ => absurd hi (by simp)
  | (t, f) :: rest, d, k, 0, hi, hm => by
    by_cases ht : t = unknownStr
    · simp only [album_moves_cons_unknown d k t f rest ht]
      simp [ht]
    · simp only [album_moves_cons_known d k t f rest ht]
      simp [ht]
  | (t, f) :: rest, d, k, i + 1, hi, hm => by
    have hi2 : i < rest.length := by simpa using hi
    by_cases ht : t = unknownStr
    · have hm2 : i < (album_moves d (k + 1) rest).length := by
        have h := hm
        rw [album_moves_cons_unknown d k t f rest ht] at h
        simpa using h
      have hrec := album_moves_getElem rest d (k + 1) i hi2 hm2
      simp only [album_moves_cons_unknown d k t f rest ht]
      simp only [List.getElem_cons_succ, List.take_succ_cons, List.countP_cons]
      rw [hrec]
      have harg : ∀ cnt : Nat,
          k + 1 + cnt = k + (cnt + if ((t, f).1 == unknownStr) = true then 1 else 0) := by
        intro cnt
        simp [ht]
        omega
      rw [harg ((rest.take i).countP fun tf => tf.1 == unknownStr)]
    · have hm2 : i < (album_moves d k rest).length := by
        have h := hm
        rw [album_moves_cons_known d k t f rest ht] at h
        simpa using h
      have hrec := album_moves_getElem rest d k i hi2 hm2
      simp only [album_moves_cons_known d k t f rest ht]
      simp only [List.getElem_cons_succ, List.take_succ_cons, List.countP_cons]
      rw [hrec]
      have harg : ∀ cnt : Nat,
          k + cnt = k + (cnt + if ((t, f).1 == unknownStr) = true then 1 else 0) := by
        intro cnt
        simp [ht]
      rw [harg ((rest.take i).countP fun tf => tf.1 == unknownStr)]

theorem stat_title_ascii_ok (stats : Stats) (acc : StatAcc) (item : MusicSong)
    (r : Stats × StatAcc × MusicSong) :
    stat_title_ascii stats acc item = Except.ok r ↔
      item.title_ascii ≠ emptyStr ∧ r = (stats, acc, item) := by
  unfold stat_title_ascii namedtupleSetattr
  split
  · simp_all
  · simp_all [eq_comm]

theorem stat_title_ok (stats : Stats) (acc : StatAcc) (item : MusicSong)
    (r : Stats × StatAcc × MusicSong) :
    stat_title stats acc item = Except.ok r ↔
      item.title ≠ unknownStr ∧ item.title_ascii ≠ emptyStr ∧
        r = (stats, ⟨acc.artist_list, acc.album_list,
          dedupAppend acc.title_list item.title⟩, item) := by
  unfold stat_title namedtupleSetattr
  split
  · simp_all
  · split
    · rw [stat_title_ascii_ok]
      simp_all [dedupAppend]
    · rw [stat_title_ascii_ok]
      simp_all [dedupAppend]

theorem stat_album_ascii_ok (stats : Stats) (acc : StatAcc) (item : MusicSong)
    (r : Stats × StatAcc × MusicSong) :
    stat_album_ascii stats acc item = Except.ok r ↔
      item.album_ascii ≠ emptyStr ∧ item.title ≠ unknownStr ∧ item.title_ascii ≠ emptyStr ∧
        r = (stats, ⟨acc.artist_list, acc.album_list,
          dedupAppend acc.title_list item.title⟩, item) := by
  unfold stat_album_ascii namedtupleSetattr
  split
  · simp_all
  · rw [stat_title_ok]
    simp_all

theorem stat_album_ok (stats : Stats) (acc : StatAcc) (item : MusicSong)
    (r : Stats × StatAcc × MusicSong) :
    stat_album stats acc item = Except.ok r ↔
      item.album ≠ unknownStr ∧ item.album_ascii ≠ emptyStr ∧
      item.title ≠ unknownStr ∧ item.title_ascii ≠ emptyStr ∧
        r = (stats, ⟨acc.artist_list, dedupAppend acc.album_list item.album,
          dedupAppend acc.title_list item.title⟩, item) := by
  unfold stat_album
  split
  · rw [show pyLoadName statBoundNames "stat" = Except.error PyError.nameError from rfl]
    simp_all
  · split
    · rw [stat_album_ascii_ok]
      simp_all [dedupAppend]
    · rw [stat_album_ascii_ok]
      simp_all [dedupAppend]

theorem stat_artist_ascii_ok (stats : Stats) (acc : StatAcc) (item : MusicSong)
    (r : Stats × StatAcc × MusicSong) :
    stat_artist_ascii stats acc item = Except.ok r ↔
      item.artist_ascii ≠ emptyStr ∧ item.album ≠ unknownStr ∧ item.album_ascii ≠ emptyStr ∧
      item.title ≠ unknownStr ∧ item.title_ascii ≠ emptyStr ∧
        r = (stats, ⟨acc.artist_list, dedupAppend acc.album_list item.album,
          dedupAppend acc.title_list item.title⟩, item) := by
  unfold stat_artist_ascii namedtupleSetattr
  split
  · simp_all
  · rw [stat_album_ok]
    simp_all

theorem stat_step_ok (stats : Stats) (acc : StatAcc) (item : MusicSong)
    (r : Stats × StatAcc × MusicSong) :
    stat_step stats acc item = Except.ok r ↔
      item.artist ≠ unknownStr ∧ item.artist_ascii ≠ emptyStr ∧
      item.album ≠ unknownStr ∧ item.album_ascii ≠ emptyStr ∧
      item.title ≠ unknownStr ∧ item.title_ascii ≠ emptyStr ∧
        r = (stats, ⟨dedupAppend acc.artist_list item.artist,
          dedupAppend acc.album_list item.album,
          dedupAppend acc.title_list item.title⟩, item) := by
  unfold stat_step namedtupleSetattr
  split
  · simp_all
  · split
    · rw [stat_artist_ascii_ok]
      simp_all [dedupAppend]
    · rw [stat_artist_ascii_ok]
      simp_all [dedupAppend]

theorem stat_loop_fst_error :
    ∀ (l : List MusicSong) (stats : Stats) (acc : StatAcc) (done : List MusicSong),
      ∃ e, (stat_loop stats acc done l).1 = Except.error e
  | [], stats, acc, done =>
    ⟨PyError.attributeError, by simp [stat_loop, namedtupleSetattr]⟩
  | item :: rest, stats, acc, done => by
    cases h : stat_step stats acc item with
    | ok res =>
      obtain ⟨s, a, it⟩ := res
      have hrec := stat_loop_fst_error rest s a (it :: done)
      simpa [stat_loop, h] using hrec
    | error e =>
      exact ⟨e, by simp [stat_loop, h]⟩

theorem stat_loop_snd_snd :
    ∀ (l : List MusicSong) (stats : Stats) (acc : StatAcc) (done : List MusicSong),
      (stat_loop stats acc done l).2.2 = done.reverse ++ l
  | [], stats, acc, done => by simp [stat_loop, namedtupleSetattr]
  | item :: rest, stats, acc, done => by
    cases h : stat_step stats acc item with
    | ok res =>
      obtain ⟨s, a, it⟩ := res
      have hit : it = item := by
        have hr := (stat_step_ok stats acc item (s, a, it)).mp h
        exact congrArg (fun x => x.2.2) hr.2.2.2.2.2.2
      simp only [stat_loop, h]
      rw [stat_loop_snd_snd rest s a (it :: done), hit]
      simp
    | error e =>
      simp [stat_loop, h]

theorem get_statistics_snd_snd (l : List MusicSong) : (get_statistics l).2.2 = l := by
  unfold get_statistics
  rw [stat_loop_snd_snd]
  rfl

theorem get_music_files_list_ok_of_no_raise :
    ∀ fs : List (FileRec × TagReadOutcome),
      (∀ fo ∈ fs, fo.2 ≠ TagReadOutcome.raisesErr) →
      get_music_files_list fs = Except.ok (fs.filterMap fun fo =>
        match fo.2 with
        | TagReadOutcome.audio => some fo.1
        | TagReadOutcome.notAudio => none
        | TagReadOutcome.raisesErr => none)
  | [], _ => rfl
  | (f, o) :: rest, h => by
    have hrest := get_music_files_list_ok_of_no_raise rest
      (fun x hx => h x (List.mem_cons_of_mem _ hx))
    cases o with
    | audio => simp [get_music_files_list, hrest, List.filterMap_cons]
    | notAudio => simp [get_music_files_list, hrest, List.filterMap_cons]
    | raisesErr =>
      exact absurd rfl (h (f, TagReadOutcome.raisesErr) (List.mem_cons_self _ _))

theorem get_music_files_list_error_of_raise :
    ∀ fs : List (FileRec × TagReadOutcome), (∃ f, (f, TagReadOutcome.raisesErr) ∈ fs) →
      ∃ e, get_music_files_list fs = Except.error e
  | [], h => by
    obtain ⟨f, hf⟩ := h
    simp at hf
  | (g, o) :: rest, h => by
    cases o with
    | raisesErr => exact ⟨PyError.readError, by simp [get_music_files_list]⟩
    | audio =>
      obtain ⟨f, hf⟩ := h
      rcases List.mem_cons.mp hf with h1 | h1
      · simp at h1
      · obtain ⟨e, he⟩ := get_music_files_list_error_of_raise rest ⟨f, h1⟩
        exact ⟨e, by simp [get_music_files_list, he]⟩
    | notAudio =>
      obtain ⟨f, hf⟩ := h
      rcases List.mem_cons.mp hf with h1 | h1
      · simp at h1
      · obtain ⟨e, he⟩ := get_music_files_list_error_of_raise rest ⟨f, h1⟩
        exact ⟨e, by simp [get_music_files_list, he]⟩

/-- C10: to_snake_case s is non-empty iff s contains at least one ASCII
    letter or digit; to_snake_case is a pure total function (equal inputs
    give equal outputs, including empty and fully-symbolic inputs), with
    to_snake_case "Unknown" = "unknown" and to_snake_case "Empty" =
    "empty". -/
theorem to_snake_case_spec :
    (∀ s : List Char, to_snake_case s ≠ [] ↔ ∃ c ∈ s, isAsciiAlnum c = true) ∧
    (∀ s t : List Char, s = t → to_snake_case s = to_snake_case t) ∧
    to_snake_case "Unknown".data = "unknown".data ∧
    to_snake_case "Empty".data = "empty".data := by
  refine ⟨?_, ?_, by decide, by decide⟩
  · intro s
    rw [Ne, to_snake_case_eq_nil]
    push_neg
    simp only [Bool.not_eq_false]
  · intro s t h
    rw [h]

/-- Witness for C10: determinism applied at "Sigur Ros", and non-emptiness
    applied at the concrete string "a-b". -/
theorem to_snake_case_spec_witness :
    to_snake_case "Sigur Ros".data = to_snake_case "Sigur Ros".data ∧
    to_snake_case "a-b".data ≠ [] :=
  ⟨to_snake_case_spec.2.1 "Sigur Ros".data "Sigur Ros".data rfl,
   (to_snake_case_spec.1 "a-b".data).mpr ⟨'a', by decide, by decide⟩⟩

/-- C1 counterexample: two tracks in the same bucket whose titles "Song" and
    "song" differ only in capitalization receive the same destination path
    a/b/song.mp3, so the plan computed by move_files_to_folders is not
    pairwise distinct. -/
theorem move_files_collision_cex :
    move_files_to_folders
        [("A".data, [("B".data, [("Song".data, fileA), ("song".data, fileB)])])] [] =
      [(fileA, ["a".data, "b".data, "song.mp3".data]),
       (fileB, ["a".data, "b".data, "song.mp3".data])] ∧
    fileA ≠ fileB ∧
    ¬ List.Pairwise (fun a b => a.2 ≠ b.2)
        (move_files_to_folders
          [("A".data, [("B".data, [("Song".data, fileA), ("song".data, fileB)])])] []) := by
  refine ⟨by decide, by decide, by decide⟩

/-- C1 (amended): the plan is collision-free only among the tracks whose
    title is literally "Unknown": within one (artist, album) bucket those
    tracks receive pairwise-distinct destination paths (provided each file
    suffix is empty or dot-initial, as pathlib guarantees), and their moves
    form a sublist of the bucket's full move list; tracks whose distinct
    titles share a snake_case key are not disambiguated and may collide. -/
theorem album_moves_unknown_no_collision :
    ∀ (d : List (List Char)) (k : Nat) (bucket : List (List Char × FileRec)),
      (∀ tf ∈ bucket, suffixOk tf.2.suffix) →
      List.Pairwise (fun a b => a.2 ≠ b.2)
          (album_moves d k (bucket.filter fun tf => tf.1 == unknownStr)) ∧
        (album_moves d k (bucket.filter fun tf => tf.1 == unknownStr)).Sublist
          (album_moves d k bucket) := by
  intro d k bucket hsuf
  refine ⟨?_, album_moves_filter_sublist bucket d k⟩
  apply album_moves_all_unknown_pairwise
  · intro tf htf
    have h := (List.mem_filter.mp htf).2
    simpa using h
  · intro tf htf
    exact hsuf tf (List.mem_filter.mp htf).1

/-- Witness for the amended C1 theorem at a concrete three-track bucket. -/
theorem album_moves_unknown_no_collision_witness :
    List.Pairwise (fun a b => a.2 ≠ b.2)
        (album_moves [] 0 ([("Unknown".data, fileC), ("Song".data, fileA),
          ("Unknown".data, fileD)].filter fun tf => tf.1 == unknownStr)) ∧
      (album_moves [] 0 ([("Unknown".data, fileC), ("Song".data, fileA),
          ("Unknown".data, fileD)].filter fun tf => tf.1 == unknownStr)).Sublist
        (album_moves [] 0 [("Unknown".data, fileC), ("Song".data, fileA),
          ("Unknown".data, fileD)]) :=
  album_moves_unknown_no_collision [] 0
    [("Unknown".data, fileC), ("Song".data, fileA), ("Unknown".data, fileD)] (by decide)

/-- C5 counterexample: of two "Unknown"-titled tracks in one bucket the
    first does not keep the unsuffixed key unknown — it becomes unknown0
    (and the second unknown1), unlike the claimed unknown / unknown1. -/
theorem first_unknown_suffix_cex :
    move_files_to_folders
        [("A".data, [("B".data, [("Unknown".data, fileC), ("Unknown".data, fileD)])])] [] =
      [(fileC, ["a".data, "b".data, "unknown0.mp3".data]),
       (fileD, ["a".data, "b".data, "unknown1.mp3".data])] ∧
    (move_files_to_folders
        [("A".data, [("B".data, [("Unknown".data, fileC), ("Unknown".data, fileD)])])]
        []).map Prod.snd ≠
      [["a".data, "b".data, "unknown.mp3".data],
       ["a".data, "b".data, "unknown1.mp3".data]] := by
  refine ⟨by decide, by decide⟩

/-- Witness for C5 (the amended positional theorem) at a concrete bucket:
    the track at position 1, the second Unknown-titled one, is assigned
    title "Unknown1". -/
theorem album_moves_position_witness :
    (album_moves [] 0 [("Unknown".data, fileC), ("Unknown".data, fileD)]).get ⟨1, by decide⟩ =
      (fileD, [to_snake_case ("Unknown".data ++ natStr 1) ++ fileD.suffix]) := by
  rw [List.get_eq_getElem]
  rw [album_moves_getElem [("Unknown".data, fileC), ("Unknown".data, fileD)] [] 0 1
    (by decide) (by decide)]
  decide

/-- C2: get_statistics raises an unhandled exception on every input list,
    including the empty list (the closing stats.artists assignment on the
    namedtuple raises AttributeError), and never returns a Stats value. -/
theorem get_statistics_always_raises :
    (get_statistics []).1 = Except.error PyError.attributeError ∧
    ∀ l : List MusicSong, ∃ e, (get_statistics l).1 = Except.error e := by
  refine ⟨rfl, fun l => ?_⟩
  unfold get_statistics
  exact stat_loop_fst_error l Stats.zero ⟨[], [], []⟩ []

/-- C3: build_directory_tree raises NameError before creating any
    directory, because its loop iterates the unbound name
    music_file_paths; consequently the pipeline of main never completes
    the materialization step on any input. -/
theorem build_directory_tree_nameError :
    (∀ (l : List MusicSong) (t : List (List Char)),
      build_directory_tree l t = ([], Except.error PyError.nameError)) ∧
    (∀ (fs : List (FileRec × TagReadOutcome))
      (tags : FileRec → List (String × List (List Char)))
      (ud : List Char → List Char) (td : List (List Char)),
      ∃ e, main_run fs tags ud td = Except.error e) := by
  constructor
  · intro l t
    rfl
  · intro fs tags ud td
    cases hf : get_music_files_list fs with
    | error e => exact ⟨e, by simp [main_run, hf]⟩
    | ok paths =>
      obtain ⟨e, he⟩ := stat_loop_fst_error
        (paths.map fun f => create_musicsong_object ud f (tags f)) Stats.zero ⟨[], [], []⟩ []
      exact ⟨e, by simp [main_run, hf, get_statistics, he]⟩

/-- C4: evaluation of the normalizer at a file whose tag mapping is empty
    (no artist tag): the raw artist field of the constructed MusicSong is
    the empty string, not "Unknown" — the attrs default that would
    substitute "Unknown" never fires because create_musicsong_object
    always passes the fallback value "" — while the ascii field does fall
    back to "Empty".  The transliterator is the identity here, as
    unidecode is on its pure-ASCII input "". -/
theorem create_musicsong_empty_artist :
    (create_musicsong_object (fun s => s) fileE []).artist = [] ∧
    (create_musicsong_object (fun s => s) fileE []).artist ≠ unknownStr ∧
    (create_musicsong_object (fun s => s) fileE []).artist_ascii = emptyStr := by
  refine ⟨rfl, by decide, rfl⟩

/-- C6 counterexample: a scan in which the second of three files raises on
    read aborts the whole run with the propagated exception; the remaining
    audio file is not collected, contrary to the claim. -/
theorem scan_aborts_cex :
    get_music_files_list [(fileF, TagReadOutcome.audio), (fileG, TagReadOutcome.raisesErr),
        (fileH, TagReadOutcome.audio)] = Except.error PyError.readError ∧
      get_music_files_list [(fileF, TagReadOutcome.audio), (fileG, TagReadOutcome.raisesErr),
        (fileH, TagReadOutcome.audio)] ≠ Except.ok [fileF, fileH] := by
  refine ⟨rfl, ?_⟩
  intro h
  rw [show get_music_files_list [(fileF, TagReadOutcome.audio),
    (fileG, TagReadOutcome.raisesErr), (fileH, TagReadOutcome.audio)]
    = Except.error PyError.readError from rfl] at h
  exact Except.noConfusion h

/-- C6 (amended): when any file's read raises, get_music_files_list logs
    and re-raises, aborting the whole scan with an exception; only when no
    file raises does the scan complete, returning exactly the files the
    Tag Reader recognizes as audio, in order (non-audio files skipped). -/
theorem scan_error_propagation :
    ∀ fs : List (FileRec × TagReadOutcome),
      ((∃ f, (f, TagReadOutcome.raisesErr) ∈ fs) →
        ∃ e, get_music_files_list fs = Except.error e) ∧
      ((∀ fo ∈ fs, fo.2 ≠ TagReadOutcome.raisesErr) →
        get_music_files_list fs = Except.ok (fs.filterMap fun fo =>
          match fo.2 with
          | TagReadOutcome.audio => some fo.1
          | TagReadOutcome.notAudio => none
          | TagReadOutcome.raisesErr => none)) :=
  fun fs => ⟨get_music_files_list_error_of_raise fs, get_music_files_list_ok_of_no_raise fs⟩

/-- Witness for the amended C6 theorem: a one-file scan that raises, and a
    one-file scan that succeeds. -/
theorem scan_error_propagation_witness :
    (∃ e, get_music_files_list [(fileG, TagReadOutcome.raisesErr)] = Except.error e) ∧
    get_music_files_list [(fileF, TagReadOutcome.audio)] = Except.ok [fileF] :=
  ⟨(scan_error_propagation [(fileG, TagReadOutcome.raisesErr)]).1
      ⟨fileG, List.mem_singleton_self _⟩,
   (scan_error_propagation [(fileF, TagReadOutcome.audio)]).2 (by decide)⟩

/-- C7: get_statistics leaves every MusicSong unchanged: the list of
    tracks visible to the caller after the call (which always ends in an
    exception) equals the input list — every statement that would mutate a
    title is preceded by a raising statement and never executes. -/
theorem get_statistics_preserves_tracks :
    ∀ l : List MusicSong, (get_statistics l).2.2 = l :=
  get_statistics_snd_snd

/-- C8 counterexample: two tracks whose raw artist strings differ only in
    capitalization, hence share the snake_case key song_artist, are both
    appended to the internal artist_list — the distinct-artist count basis
    is the raw string, not the normalized key (and no Stats value is ever
    returned: the call ends in AttributeError). -/
theorem statistics_raw_dedup_cex :
    songRawA.artist ≠ songRawB.artist ∧
    to_snake_case songRawA.artist_ascii = to_snake_case songRawB.artist_ascii ∧
    (get_statistics [songRawA, songRawB]).2.1.artist_list =
      [songRawA.artist, songRawB.artist] ∧
    (get_statistics [songRawA, songRawB]).1 = Except.error PyError.attributeError := by
  refine ⟨by decide, by decide, rfl, rfl⟩

/-- C8 (amended): when one loop iteration of get_statistics completes
    without raising, each of the three seen-lists is deduplicated by the
    raw string — the item's raw artist/album/title is appended iff it is
    not already present, with no normalization applied — and the Stats
    value is never modified. -/
theorem stat_step_raw_dedup :
    ∀ (stats : Stats) (acc : StatAcc) (item : MusicSong) (r : Stats × StatAcc × MusicSong),
      stat_step stats acc item = Except.ok r →
      r = (stats, ⟨dedupAppend acc.artist_list item.artist,
        dedupAppend acc.album_list item.album,
        dedupAppend acc.title_list item.title⟩, item) := by
  intro stats acc item r h
  exact ((stat_step_ok stats acc item r).mp h).2.2.2.2.2.2

/-- Witness for the amended C8 theorem at a concrete track and empty
    accumulator. -/
theorem stat_step_raw_dedup_witness :
    (Stats.zero, (⟨["Song Artist".data], ["Album B".data], ["Title One".data]⟩ : StatAcc),
        songRawA) =
      (Stats.zero, (⟨dedupAppend [] songRawA.artist, dedupAppend [] songRawA.album,
        dedupAppend [] songRawA.title⟩ : StatAcc), songRawA) :=
  stat_step_raw_dedup Stats.zero ⟨[], [], []⟩ songRawA
    (Stats.zero, ⟨["Song Artist".data], ["Album B".data], ["Title One".data]⟩, songRawA)
    rfl

/-- C9: running the grouping-and-statistics pass a second time, on the
    track list as left behind by the first run, yields a structurally
    equal result (same outcome, same seen-lists, same tracks). -/
theorem get_statistics_idempotent :
    ∀ l : List MusicSong, get_statistics ((get_statistics l).2.2) = get_statistics l := by
  intro l
  rw [get_statistics_snd_snd l]
